import Mathlib

/-!
Verification of the user-management layer of `drf_simple_shop`
(`src/users/managers/users.py` and `src/users/serializers/api/users.py`),
as a shallow embedding in Lean 4.

Python optional string arguments are modelled as `Option String`; Python
truthiness of such a value (`if email:`) is `truthy`.  Exceptions become
an explicit `Err` sum carried through `Except`.
-/

/-- Exception kinds raised by the code under verification:
DRF `ParseError` (HTTP 400), Python `ValueError`, and DRF serializer
`ValidationError`. -/
inductive Err where
  | parseError (msg : String)
  | valueError (msg : String)
  | validationError (msg : String)
deriving DecidableEq, Repr

/-- Python truthiness of an optional string: `None` and `""` are falsy. -/
def truthy : Option String → Bool
  | none => false
  | some s => !(s == "")

/-- Modelled from the spec: the user model's role enumeration (the models
file is not part of the sources; the serializers reference
`Role.ADMIN`, `Role.MANAGER` and `Role.choices`).  Roles are held as the
strings a text-choices field stores. -/
def Role.ADMIN : String := "admin"

/-- Modelled from the spec: the manager member of the role enumeration. -/
def Role.MANAGER : String := "manager"

/-- Modelled from the spec: the ordinary-user member of the role
enumeration, used as the model's default role. -/
def Role.USER : String := "user"

/-- Modelled from the spec: the value column of `Role.choices`. -/
def Role.choices : List String := [Role.ADMIN, Role.MANAGER, Role.USER]

/-- The persisted user row.  Character fields default to the empty string,
flags to the values the manager sets. -/
structure UserRec where
  username : String
  first_name : String
  last_name : String
  email : String
  phone_number : String
  password : String
  role : String
  is_superuser : Bool
  is_active : Bool
  is_staff : Bool
deriving DecidableEq, Repr

/-- Django `make_password` as used by `User.set_password`: `None` yields an
unusable password, a raw string yields its hash.  The hasher itself is
modelled as a deterministic injective tagging function. -/
def make_password : Option String → String
  | none => "!"
  | some raw => "pbkdf2$" ++ raw

/-- Django `User.check_password`: the raw password matches the stored hash. -/
def check_password (stored : String) (raw : String) : Bool :=
  stored == make_password (some raw)

/-- Python `str.strip()`: drop whitespace from both ends. -/
def stripChars (cs : List Char) : List Char :=
  ((cs.dropWhile Char.isWhitespace).reverse.dropWhile
    Char.isWhitespace).reverse

/-- Python `str.lower()`. -/
def strLower (s : String) : String := String.mk (s.data.map Char.toLower)

/-- Split a character list at its LAST `'@'`, as Python
`s.rsplit(chr(64), 1)` does; `none` when there is no `'@'`. -/
def splitLastAt : List Char → Option (List Char × List Char)
  | [] => none
  | c :: rest =>
    match splitLastAt rest with
    | some (l, r) => some (c :: l, r)
    | none => if c = '@' then some ([], rest) else none

/-- Django `BaseUserManager.normalize_email`: strip surrounding whitespace,
split at the last `'@'` and lowercase the domain part; an input with no
`'@'` is returned unchanged. -/
def normalize_email (email : String) : String :=
  match splitLastAt (stripChars email.data) with
  | none => email
  | some (l, r) => String.mk (l ++ '@' :: r.map Char.toLower)

/-- Python `value.split(chr(64))[0]`: the part before the first `'@'`. -/
def beforeFirstAt (s : String) : String :=
  String.mk (s.data.takeWhile (fun c => c ≠ '@'))

/-- Python `chr(64) in value`. -/
def containsAt (s : String) : Bool := s.data.contains '@'

/-- `CustomUserManager.__check_email_or_phone_number`: Python
`email or phone_number`. -/
def check_email_or_phone_number (email phone_number : Option String) :
    Option String :=
  if truthy email then email else phone_number

/-- `CustomUserManager.__create_user`.  `is_superuser` and `is_active` are
the values present in `extra_fields` after the callers' `setdefault`.
Field defaults of the model (empty strings, `Role.USER`, `is_staff` false)
are modelled from the spec, the models file not being in the sources. -/
def create_user_core (phone_number email password username : Option String)
    (is_superuser is_active : Bool) : Except Err UserRec :=
  if !(truthy email || truthy phone_number || truthy username) then
    .error (.parseError "Specify email or phone number")
  else
    let email := if truthy email then some (normalize_email (email.getD ""))
                 else email
    let username :=
      if truthy username then username.getD ""
      else
        let value := (check_email_or_phone_number email phone_number).getD ""
        if containsAt value then beforeFirstAt value else value
    let user : UserRec :=
      { username := username
        first_name := "", last_name := ""
        email := "", phone_number := "", password := ""
        role := Role.USER
        is_superuser := is_superuser, is_active := is_active
        is_staff := false }
    let user := if truthy email then { user with email := email.getD "" }
                else user
    let user := if truthy phone_number then
                  { user with phone_number := phone_number.getD "" }
                else user
    let user := if user.is_superuser then { user with role := Role.ADMIN }
                else user
    .ok { user with password := make_password password }

/-- `CustomUserManager.create_user`: `setdefault` makes `is_superuser`
default to `false` and `is_active` to `true`. -/
def create_user (phone_number email password username : Option String)
    (is_superuser is_active : Option Bool) : Except Err UserRec :=
  create_user_core phone_number email password username
    (is_superuser.getD false) (is_active.getD true)

/-- `CustomUserManager.create_superuser`: `setdefault` makes `is_superuser`
default to `true` and `is_active` to `true`; a falsy `is_superuser` raises
`ValueError` before any user is created. -/
def create_superuser (email phone_number password username : Option String)
    (is_superuser is_active : Option Bool) : Except Err UserRec :=
  let su := is_superuser.getD true
  if !su then .error (.valueError "is_superuser must be True")
  else create_user_core phone_number email password username su
    (is_active.getD true)

/-- `RegistrationSerializer.validate_email`: lowercase the input and reject
it when a user with exactly that email already exists; `existing` is the
set of stored emails (`User.objects.filter(email=email).exists()`). -/
def validate_email (existing : List String) (value : String) :
    Except Err String :=
  let email := strLower value
  if existing.contains email then
    .error (.parseError "A user with this email is already registered.")
  else .ok email

/-- `ChangePasswordSerializer.validate`: the supplied old password must
match the current user's stored password. -/
def changePassword_validate (user : UserRec) (old_password : String) :
    Except Err Unit :=
  if !(check_password user.password old_password) then
    .error (.parseError "wrong current password")
  else .ok ()

/-- `ChangePasswordSerializer.update`: hash the new password into the
instance. -/
def changePassword_update (inst : UserRec) (new_password : String) :
    UserRec :=
  { inst with password := make_password (some new_password) }

/-- A change-password request: field validation then update, as the
framework drives the serializer. -/
def changePassword (user : UserRec) (old_password new_password : String) :
    Except Err UserRec :=
  match changePassword_validate user old_password with
  | .error e => .error e
  | .ok _ => changePassword_update user new_password |> .ok

/-- Membership of a role value in `Role.choices`, the test
`UserUpdateRoleSerializer.update` computes. -/
def roleExists (r : String) : Bool := Role.choices.contains r

/-- `UserUpdateRoleSerializer.update`.  The source computes
`roleExists current_role` and builds a `ParseError` when it is false, but
the exception is never raised (the `raise` keyword is missing), so the
function is total: it always assigns the role, setting `is_staff` first
when the new role is ADMIN or MANAGER. -/
def updateRole (inst : UserRec) (current_role : String) : UserRec :=
  let inst2 :=
    if current_role = Role.ADMIN ∨ current_role = Role.MANAGER then
      { inst with is_staff := true }
    else inst
  { inst2 with role := current_role }

/-- The incoming data of `UserUpdateSerializer` (profile part excluded):
absent keys leave the corresponding field untouched. -/
structure UserUpdateData where
  first_name : Option String
  last_name : Option String
  email : Option String
  phone_number : Option String
  username : Option String
deriving DecidableEq, Repr

/-- Keep the current value when the update carries no value for a field. -/
def setIfSome (cur : String) : Option String → String
  | none => cur
  | some v => v

/-- `ModelSerializer.update` on the user's own fields: set each attribute
present in `validated_data`, then save. -/
def applyUserUpdate (u : UserRec) (d : UserUpdateData) : UserRec :=
  { u with
    first_name := setIfSome u.first_name d.first_name
    last_name := setIfSome u.last_name d.last_name
    email := setIfSome u.email d.email
    phone_number := setIfSome u.phone_number d.phone_number
    username := setIfSome u.username d.username }

/-- The database rows touched by the combined user-plus-profile update.
The `Profile` model is not among the sources, so its row type is an
arbitrary `P`. -/
structure DBState (P : Type) where
  user : UserRec
  profile : P
deriving DecidableEq, Repr

/-- `django.db.transaction.atomic`: run the block; when it raises, the
database state observed afterwards is the state on entry (rollback);
when it finishes, the block's writes are kept.  The pair is (outcome,
database state after the `with` statement). -/
def atomic {S : Type} (s : S) (block : S → Except Err S) :
    Except Err S × S :=
  match block s with
  | .ok s2 => (.ok s2, s2)
  | .error e => (.error e, s)

/-- `UserUpdateSerializer._update_profile`: run the nested profile
serializer with `raise_exception=True` then save.  `validP` and `applyP`
stand for `ProfileUpdateSerializer`'s validation and save, whose code is
not among the sources; the claim is proved for every such pair. -/
def update_profile {P D : Type} (validP : D → Option Err) (applyP : P → D → P)
    (profile : P) (data : D) : Except Err P :=
  match validP data with
  | some e => .error e
  | none => .ok (applyP profile data)

/-- `UserUpdateSerializer.update`: inside one `transaction.atomic` block,
update the user's fields, then, when profile data was supplied, validate
and save the profile. -/
def userUpdate {P D : Type} (validP : D → Option Err) (applyP : P → D → P)
    (db : DBState P) (ud : UserUpdateData) (profile_data : Option D) :
    Except Err (DBState P) × DBState P :=
  atomic db (fun s =>
    let s1 : DBState P := { s with user := applyUserUpdate s.user ud }
    match profile_data with
    | none => .ok s1
    | some d =>
      match update_profile validP applyP s1.profile d with
      | .error e => .error e
      | .ok p2 => .ok { s1 with profile := p2 })

/-! ## Helper lemmas -/

theorem truthy_some_iff (s : String) : truthy (some s) = true ↔ s ≠ "" := by
  simp [truthy]

theorem normalize_email_ne (s : String) (h : s ≠ "") :
    normalize_email s ≠ "" := by
  unfold normalize_email
  cases hsp : splitLastAt (stripChars s.data) with
  | none => exact h
  | some p =>
    obtain ⟨l, r⟩ := p
    intro hcon
    have h2 := congrArg String.data hcon
    simp at h2

theorem truthy_normalize (s : String) (h : truthy (some s) = true) :
    truthy (some (normalize_email s)) = true := by
  rw [truthy_some_iff] at h ⊢
  exact normalize_email_ne s h

/-- Full characterization of `__create_user` when an identifier is
present: creation succeeds and every field of the stored row is given by
the inputs. -/
theorem create_user_core_ok (phone email password username : Option String)
    (su ia : Bool)
    (hg : truthy email = true ∨ truthy phone = true ∨
      truthy username = true) :
    ∃ u, create_user_core phone email password username su ia = .ok u ∧
      u.email = (if truthy email then normalize_email (email.getD "")
                 else "") ∧
      u.phone_number = (if truthy phone then phone.getD "" else "") ∧
      u.password = make_password password ∧
      u.is_superuser = su ∧ u.is_active = ia ∧ u.is_staff = false ∧
      u.first_name = "" ∧ u.last_name = "" ∧
      u.role = (if su then Role.ADMIN else Role.USER) ∧
      u.username =
        (if truthy username then username.getD ""
         else
           let value := if truthy email then normalize_email (email.getD "")
                        else phone.getD ""
           if containsAt value then beforeFirstAt value else value) := by
  have hguard : (truthy email || truthy phone || truthy username) = true := by
    rcases hg with h | h | h <;> simp [h]
  cases he : truthy email
  · cases hp : truthy phone <;> cases hu : truthy username <;> cases su <;>
      simp_all [create_user_core, check_email_or_phone_number]
  · have hne : truthy (some (normalize_email (email.getD ""))) = true := by
      cases email with
      | none => simp [truthy] at he
      | some s => exact truthy_normalize s he
    cases hp : truthy phone <;> cases hu : truthy username <;> cases su <;>
      simp_all [create_user_core, check_email_or_phone_number]

/-- `__create_user` with no identifier at all: the `ParseError` branch. -/
theorem create_user_core_err (phone email password username : Option String)
    (su ia : Bool) (he : truthy email = false) (hp : truthy phone = false)
    (hu : truthy username = false) :
    create_user_core phone email password username su ia =
      .error (.parseError "Specify email or phone number") := by
  simp [create_user_core, he, hp, hu]

/-! ## Claims -/

/-- C4: a user-creation call with email, phone number and username all
absent or empty raises `ParseError` (so no user is created); when any one
of the three is provided, the error is not raised and a user is
created. -/
theorem c4_create_user_identifier_required
    (phone email password username : Option String) (su ia : Option Bool) :
    (truthy email = false ∧ truthy phone = false ∧ truthy username = false →
      create_user phone email password username su ia =
        .error (.parseError "Specify email or phone number")) ∧
    (truthy email = true ∨ truthy phone = true ∨ truthy username = true →
      ∃ u, create_user phone email password username su ia = .ok u) := by
  constructor
  · rintro ⟨he, hp, hu⟩
    exact create_user_core_err phone email password username _ _ he hp hu
  · intro hg
    obtain ⟨u, hok, -⟩ := create_user_core_ok phone email password username
      (su.getD false) (ia.getD true) hg
    exact ⟨u, hok⟩

theorem c4_witness :
    create_user none none none none none none =
      .error (.parseError "Specify email or phone number") ∧
    ∃ u, create_user none (some "a@b.c") none none none none = .ok u :=
  ⟨(c4_create_user_identifier_required none none none none none none).1
      ⟨rfl, rfl, rfl⟩,
   (c4_create_user_identifier_required none (some "a@b.c") none none
      none none).2 (Or.inl (by decide))⟩

/-- C5: every user created through `create_superuser` carries
`is_superuser = true` and the admin role; and `__create_user` assigns
`Role.ADMIN` to every created user whose `is_superuser` flag is true. -/
theorem c5_superuser_admin_role :
    (∀ email phone password username su ia u,
        create_superuser email phone password username su ia = .ok u →
        u.is_superuser = true ∧ u.role = Role.ADMIN) ∧
    (∀ phone email password username ia u,
        create_user_core phone email password username true ia = .ok u →
        u.role = Role.ADMIN) := by
  have hcore : ∀ phone email password username ia u,
      create_user_core phone email password username true ia = .ok u →
      u.is_superuser = true ∧ u.role = Role.ADMIN := by
    intro phone email password username ia u hok
    by_cases hg : truthy email = true ∨ truthy phone = true ∨
        truthy username = true
    · obtain ⟨v, hv, -, -, -, hsup, -, -, -, -, hrole, -⟩ :=
        create_user_core_ok phone email password username true ia hg
      have huv : u = v := by
        rw [hok] at hv
        exact (Except.ok.injEq _ _).mp hv
      subst huv
      simp at hrole
      exact ⟨hsup, hrole⟩
    · push_neg at hg
      obtain ⟨he, hp, hu⟩ := hg
      rw [create_user_core_err phone email password username true ia
        (by simpa using he) (by simpa using hp) (by simpa using hu)] at hok
      cases hok
  constructor
  · intro email phone password username su ia u hok
    unfold create_superuser at hok
    cases hsu : su.getD true with
    | false => rw [hsu] at hok; simp at hok
    | true =>
      rw [hsu] at hok
      simp only [Bool.not_true, Bool.false_eq_true, if_false] at hok
      exact hcore phone email password username (ia.getD true) u hok
  · intro phone email password username ia u hok
    exact (hcore phone email password username ia u hok).2

theorem c5_witness :
    ({ username := "root", first_name := "", last_name := "",
       email := "root@x.y", phone_number := "", password := "pbkdf2$pw",
       role := Role.ADMIN, is_superuser := true, is_active := true,
       is_staff := false } : UserRec).is_superuser = true ∧
    ({ username := "root", first_name := "", last_name := "",
       email := "root@x.y", phone_number := "", password := "pbkdf2$pw",
       role := Role.ADMIN, is_superuser := true, is_active := true,
       is_staff := false } : UserRec).role = Role.ADMIN :=
  c5_superuser_admin_role.1 (some "root@x.y") none (some "pw") none
    none none _ (by rfl)

/-- C9: `create_superuser` called with an explicit `is_superuser=False`
raises `ValueError` and creates no user; with `is_superuser` not supplied
it defaults to true and (given an identifier) creation proceeds, the
created user being a superuser. -/
theorem c9_create_superuser_flag
    (email phone password username : Option String) (ia : Option Bool) :
    create_superuser email phone password username (some false) ia =
      .error (.valueError "is_superuser must be True") ∧
    (truthy email = true ∨ truthy phone = true ∨ truthy username = true →
      ∃ u, create_superuser email phone password username none ia = .ok u ∧
        u.is_superuser = true) := by
  constructor
  · simp [create_superuser]
  · intro hg
    obtain ⟨u, hok, -, -, -, hsup, -⟩ := create_user_core_ok phone email
      password username true (ia.getD true) hg
    exact ⟨u, by simpa [create_superuser] using hok, hsup⟩

theorem c9_witness :
    create_superuser (some "r@x.y") none none none (some false) none =
      .error (.valueError "is_superuser must be True") ∧
    ∃ u, create_superuser (some "r@x.y") none none none none none = .ok u ∧
      u.is_superuser = true :=
  ⟨(c9_create_superuser_flag (some "r@x.y") none none none none).1,
   (c9_create_superuser_flag (some "r@x.y") none none none none).2
      (Or.inl (by decide))⟩

/-- C1: when the username is absent but an identifier is given, the
created user's username is derived from the identifier — the part of the
normalized email before the at-sign when the identifier contains one,
otherwise the identifier itself — the email being preferred over the
phone number. -/
theorem c1_username_derivation
    (phone email password username : Option String) (su ia : Option Bool)
    (hu : truthy username = false)
    (hid : truthy email = true ∨ truthy phone = true) :
    ∃ u, create_user phone email password username su ia = .ok u ∧
      u.username =
        (let ident := if truthy email then normalize_email (email.getD "")
                      else phone.getD ""
         if containsAt ident then beforeFirstAt ident else ident) := by
  obtain ⟨u, hok, -, -, -, -, -, -, -, -, -, hun⟩ :=
    create_user_core_ok phone email password username (su.getD false)
      (ia.getD true)
      (by rcases hid with h | h; exacts [Or.inl h, Or.inr (Or.inl h)])
  refine ⟨u, hok, ?_⟩
  simpa [hu] using hun

theorem c1_witness :
    ∃ u, create_user (some "+7900") (some "Ann@Work.ORG") (some "pw") none
        none none = .ok u ∧
      u.username =
        (let ident := if truthy (some "Ann@Work.ORG") then
            normalize_email ((some "Ann@Work.ORG").getD "")
          else (some "+7900").getD ""
         if containsAt ident then beforeFirstAt ident else ident) :=
  c1_username_derivation (some "+7900") (some "Ann@Work.ORG") (some "pw")
    none none none rfl (Or.inl (by decide))

/-- C6: registration email validation lowercases the input, raises
`ParseError` exactly when the lowercased email is already stored, and
otherwise returns the lowercased email. -/
theorem c6_registration_email_uniqueness
    (existing : List String) (value : String) :
    (strLower value ∈ existing →
      validate_email existing value =
        .error (.parseError
          "A user with this email is already registered.")) ∧
    (strLower value ∉ existing →
      validate_email existing value = .ok (strLower value)) := by
  constructor <;> intro h <;> simp [validate_email, h]

theorem c6_witness :
    validate_email ["a@b.c"] "A@B.C" =
      .error (.parseError "A user with this email is already registered.") ∧
    validate_email ["a@b.c"] "x@y.z" = .ok (strLower "x@y.z") :=
  ⟨(c6_registration_email_uniqueness ["a@b.c"] "A@B.C").1 (by decide),
   (c6_registration_email_uniqueness ["a@b.c"] "x@y.z").2 (by decide)⟩

/-- C7 counterexample: two creation calls whose emails differ only in
letter case store different email values, because Django's
`normalize_email` lowercases only the domain part. -/
theorem c7_counterexample :
    (create_user none (some "John@Example.COM") none (some "jj") none
        none).map UserRec.email = .ok "John@example.com" ∧
    (create_user none (some "john@example.com") none (some "jj") none
        none).map UserRec.email = .ok "john@example.com" ∧
    strLower "John@Example.COM" = strLower "john@example.com" ∧
    "John@example.com" ≠ "john@example.com" := by
  refine ⟨by rfl, by rfl, by decide, by decide⟩

/-- C7 (amended): the stored email of a created user is the input email
with surrounding whitespace stripped and only the domain part (after the
last at-sign) lowercased — Django's `normalize_email`.  Emails differing
only in domain-part case map to the same stored value; the local part's
case is preserved. -/
theorem c7_email_normalization
    (phone email password username : Option String) (su ia : Option Bool)
    (he : truthy email = true) :
    (∀ u, create_user phone email password username su ia = .ok u →
        u.email = normalize_email (email.getD "")) ∧
    normalize_email "John@EXAMPLE.com" = normalize_email "John@example.COM" := by
  constructor
  · intro u hok
    obtain ⟨v, hv, hvemail, -⟩ :=
      create_user_core_ok phone email password username (su.getD false)
        (ia.getD true) (Or.inl he)
    have huv : u = v := by
      unfold create_user at hok
      rw [hok] at hv
      exact (Except.ok.injEq _ _).mp hv
    subst huv
    simpa [he] using hvemail
  · decide

theorem c7_email_normalization_witness :
    ∃ u, create_user none (some " Bob@HOME.net ") none none none none
        = .ok u ∧ u.email = normalize_email " Bob@HOME.net " := by
  refine ⟨{ username := "Bob", first_name := "", last_name := "",
            email := "Bob@home.net", phone_number := "", password := "!",
            role := Role.USER, is_superuser := false, is_active := true,
            is_staff := false }, by rfl, ?_⟩
  exact (c7_email_normalization none (some " Bob@HOME.net ") none none
    none none (by decide)).1 _ (by rfl)

/-- C8: a change-password request raises `ParseError` exactly when the
supplied old password does not match the user's stored password; on
success the stored password becomes the hash of the new password. -/
theorem c8_change_password
    (user : UserRec) (old_password new_password : String) :
    (check_password user.password old_password = false →
      changePassword user old_password new_password =
        .error (.parseError "wrong current password")) ∧
    (check_password user.password old_password = true →
      changePassword user old_password new_password =
        .ok { user with password := make_password (some new_password) }) := by
  constructor <;> intro h <;>
    simp [changePassword, changePassword_validate, changePassword_update, h]

/-- Concrete stored user row used by the closed instances below. -/
def sampleUser : UserRec :=
  { username := "u1", first_name := "", last_name := "",
    email := "u1@x.y", phone_number := "", password := "!",
    role := Role.USER, is_superuser := false, is_active := true,
    is_staff := false }

theorem c8_change_password_witness :
    changePassword { sampleUser with password := make_password (some "old") }
        "old" "new" =
      .ok { sampleUser with password := make_password (some "new") } ∧
    changePassword { sampleUser with password := make_password (some "old") }
        "bad" "new" =
      .error (.parseError "wrong current password") :=
  ⟨(c8_change_password
      { sampleUser with password := make_password (some "old") }
      "old" "new").2 (by decide),
   (c8_change_password
      { sampleUser with password := make_password (some "old") }
      "bad" "new").1 (by decide)⟩

/-- C10: a role update sets `is_staff` to true exactly when the new role
is ADMIN or MANAGER (so an `is_staff` already true is never reset), and
changes no field of the user other than `role` and `is_staff`. -/
theorem c10_role_update_frame (u : UserRec) (r : String) :
    ((updateRole u r).is_staff =
      (if r = Role.ADMIN ∨ r = Role.MANAGER then true else u.is_staff)) ∧
    (updateRole u r).role = r ∧
    (updateRole u r).username = u.username ∧
    (updateRole u r).first_name = u.first_name ∧
    (updateRole u r).last_name = u.last_name ∧
    (updateRole u r).email = u.email ∧
    (updateRole u r).phone_number = u.phone_number ∧
    (updateRole u r).password = u.password ∧
    (updateRole u r).is_superuser = u.is_superuser ∧
    (updateRole u r).is_active = u.is_active := by
  by_cases h : r = Role.ADMIN ∨ r = Role.MANAGER <;> simp [updateRole, h]

/-- C2: the invalid-role branch of `UserUpdateRoleSerializer.update`
never raises — at the unknown role value the membership test in
`Role.choices` is false, yet the update proceeds, stores the invalid role
and leaves `is_staff` alone, because the constructed `ParseError` is not
raised. -/
theorem c2_invalid_role_not_rejected :
    roleExists "ghost" = false ∧
    updateRole sampleUser "ghost" = { sampleUser with role := "ghost" } := by
  constructor
  · decide
  · simp [updateRole, Role.ADMIN, Role.MANAGER, sampleUser]

/-- C3: the combined user-plus-profile update runs in one transaction:
when the profile part fails validation the whole update is rolled back —
the database keeps the original user and profile — and when it succeeds
both the user's fields and the profile are updated. -/
theorem c3_user_profile_update_atomic {P D : Type}
    (validP : D → Option Err) (applyP : P → D → P)
    (db : DBState P) (ud : UserUpdateData) (d : D) :
    (∀ e, validP d = some e →
      userUpdate validP applyP db ud (some d) = (.error e, db)) ∧
    (validP d = none →
      userUpdate validP applyP db ud (some d) =
        (.ok { user := applyUserUpdate db.user ud,
               profile := applyP db.profile d },
         { user := applyUserUpdate db.user ud,
           profile := applyP db.profile d })) := by
  constructor
  · intro e hv
    simp [userUpdate, atomic, update_profile, hv]
  · intro hv
    simp [userUpdate, atomic, update_profile, hv]

theorem c3_user_profile_update_atomic_witness :
    (userUpdate
        (fun b : Bool => if b then some (Err.validationError "bad")
                         else none)
        (fun (p : Nat) (_ : Bool) => p + 1)
        { user := sampleUser, profile := 0 }
        ⟨some "N", none, none, none, none⟩ (some true)
      = (.error (Err.validationError "bad"),
         { user := sampleUser, profile := 0 })) ∧
    (userUpdate
        (fun b : Bool => if b then some (Err.validationError "bad")
                         else none)
        (fun (p : Nat) (_ : Bool) => p + 1)
        { user := sampleUser, profile := 0 }
        ⟨some "N", none, none, none, none⟩ (some false)
      = (.ok { user := applyUserUpdate sampleUser
                 ⟨some "N", none, none, none, none⟩,
               profile := 1 },
         { user := applyUserUpdate sampleUser
             ⟨some "N", none, none, none, none⟩,
           profile := 1 })) :=
  ⟨(c3_user_profile_update_atomic
      (fun b : Bool => if b then some (Err.validationError "bad") else none)
      (fun (p : Nat) (_ : Bool) => p + 1)
      { user := sampleUser, profile := 0 }
      ⟨some "N", none, none, none, none⟩ true).1
        (Err.validationError "bad") rfl,
   (c3_user_profile_update_atomic
      (fun b : Bool => if b then some (Err.validationError "bad") else none)
      (fun (p : Nat) (_ : Bool) => p + 1)
      { user := sampleUser, profile := 0 }
      ⟨some "N", none, none, none, none⟩ false).2 rfl⟩
